import Mathlib

/-!
Verification of the Flutter Windows installer script (`src/installer.py`)
against its natural-language specification.

The script is straight-line effectful Python.  We embed it shallowly:

* strings are `List Char` (`Str`), semicolon-delimited PATH values are
  manipulated by `splitSemi` / `joinSemi`;
* `update_path` (installer.py lines 60-69) is a state transformer that
  replaces the in-memory `PATH` with the decoded stdout of the spawned
  `pwsh` probe; `probeOutput` is that probe's stdout when `pwsh` succeeds
  (Machine value, a `';'`, the User value, then the command's line
  terminator);
* `which` models the directory scan of Python's `shutil.which` on Windows
  (empty search path yields no result, otherwise the PATH entries are
  scanned in order with the current directory scanned first; the
  per-directory candidate check, including `PATHEXT` suffix handling, is
  abstracted by the `hasExe` predicate);
* each of the three tool flows of `__main__` (Git, Flutter SDK, Android
  command-line tools) becomes a pure function from an oracle record (the
  outcomes of the external world: process exit codes, `which` resolutions,
  page-pattern matches, interactive answers) to a result record holding the
  install outcome, the `sys.exit` code if any, the ordered trace of external
  effects, the messages logged, and the resulting persisted store /
  directory contents.
-/

namespace FlutterInstaller

/-- Strings, modelled as lists of characters. -/
abbrev Str := List Char

/-- Python `s.split(";")`: split a string on every `';'`.
`splitSemi [] = [[]]` matches `"".split(";") == [""]`. -/
def splitSemi : Str → List Str
  | [] => [[]]
  | c :: rest =>
    if c = ';' then [] :: splitSemi rest
    else
      match splitSemi rest with
      | d :: ds => (c :: d) :: ds
      | [] => [[c]]

/-- Join a list of directories with `';'` (inverse of `splitSemi` on
semicolon-free pieces). -/
def joinSemi : List Str → Str
  | [] => []
  | [d] => d
  | d :: ds => d ++ ';' :: joinSemi ds

/-- Append a suffix to the last element of a list of strings
(`appendLast [] t = [t]`). -/
def appendLast : List Str → Str → List Str
  | [], t => [t]
  | [d], t => [d ++ t]
  | d :: ds, t => d :: appendLast ds t

theorem splitSemi_ne_nil (s : Str) : splitSemi s ≠ [] := by
  induction s with
  | nil => simp [splitSemi]
  | cons c rest ih =>
    simp only [splitSemi]
    split
    · simp
    · split
      · simp
      · simp

theorem splitSemi_no_semi {s : Str} (h : ';' ∉ s) : splitSemi s = [s] := by
  induction s with
  | nil => rfl
  | cons c rest ih =>
    have hc : c ≠ ';' := fun hc => h (hc ▸ List.mem_cons_self c rest)
    have hr : ';' ∉ rest := fun hr => h (List.mem_cons_of_mem c hr)
    simp only [splitSemi, if_neg hc, ih hr]

theorem splitSemi_cons_semi (rest : Str) :
    splitSemi (';' :: rest) = [] :: splitSemi rest := by
  simp [splitSemi]

theorem splitSemi_cons_ne {c : Char} (hc : c ≠ ';') (rest : Str) :
    splitSemi (c :: rest) =
      match splitSemi rest with
      | d :: ds => (c :: d) :: ds
      | [] => [[c]] := by
  simp [splitSemi, hc]

theorem splitSemi_append_semi (a b : Str) :
    splitSemi (a ++ ';' :: b) = splitSemi a ++ splitSemi b := by
  induction a with
  | nil => simp [splitSemi]
  | cons c a ih =>
    by_cases hc : c = ';'
    · subst hc
      show splitSemi (';' :: (a ++ ';' :: b)) = splitSemi (';' :: a) ++ splitSemi b
      rw [splitSemi_cons_semi, splitSemi_cons_semi, ih, List.cons_append]
    · show splitSemi (c :: (a ++ ';' :: b)) = splitSemi (c :: a) ++ splitSemi b
      rw [splitSemi_cons_ne hc, splitSemi_cons_ne hc, ih]
      rcases hsa : splitSemi a with _ | ⟨d, ds⟩
      · exact absurd hsa (splitSemi_ne_nil a)
      · simp

theorem splitSemi_joinSemi {ms : List Str} (hne : ms ≠ [])
    (hfree : ∀ d ∈ ms, ';' ∉ d) :
    splitSemi (joinSemi ms) = ms := by
  induction ms with
  | nil => exact absurd rfl hne
  | cons d ds ih =>
    rcases ds with _ | ⟨e, es⟩
    · exact splitSemi_no_semi (hfree d (List.mem_cons_self d []))
    · have : joinSemi (d :: e :: es) = d ++ ';' :: joinSemi (e :: es) := rfl
      rw [this, splitSemi_append_semi,
        splitSemi_no_semi (hfree d (List.mem_cons_self d (e :: es))),
        ih (by simp) (fun x hx => hfree x (List.mem_cons_of_mem d hx))]
      rfl

theorem splitSemi_joinSemi_append_term {us : List Str} {term : Str}
    (hfree : ∀ d ∈ us, ';' ∉ d) (hterm : ';' ∉ term) :
    splitSemi (joinSemi us ++ term) = appendLast us term := by
  induction us with
  | nil =>
    simp only [joinSemi, List.nil_append, appendLast]
    exact splitSemi_no_semi hterm
  | cons d ds ih =>
    rcases ds with _ | ⟨e, es⟩
    · show splitSemi (d ++ term) = [d ++ term]
      exact splitSemi_no_semi (by
        intro hmem
        rcases List.mem_append.mp hmem with h | h
        · exact hfree d (List.mem_cons_self d []) h
        · exact hterm h)
    · have h1 : joinSemi (d :: e :: es) ++ term = d ++ ';' :: (joinSemi (e :: es) ++ term) := by
        show (d ++ ';' :: joinSemi (e :: es)) ++ term = _
        simp
      rw [h1, splitSemi_append_semi,
        splitSemi_no_semi (hfree d (List.mem_cons_self d (e :: es))),
        ih (fun x hx => hfree x (List.mem_cons_of_mem d hx))]
      rfl

theorem find?_append_of_isSome {α : Type} (p : α → Bool) (l₁ l₂ : List α)
    (h : (l₁.find? p).isSome) :
    (l₁ ++ l₂).find? p = l₁.find? p := by
  rw [List.find?_append]
  rcases hf : l₁.find? p with _ | a
  · rw [hf] at h
    simp at h
  · rfl

/-- `os.curdir` on the host OS. -/
def curdir : Str := ['.']

/-- `os.path.join(dir, file)` with the host's separator. -/
def joinPath (d file : Str) : Str := d ++ '\\' :: file

/-- Modelled from `shutil.which` (the locator the script uses at
installer.py lines 100, 109, 142, 162, 201, 288): an empty search path
yields no result; otherwise the PATH entries are scanned in order, with
the current directory scanned first when it is not already listed.
`hasExe d cmd` abstracts the per-directory candidate access check
(including `PATHEXT` suffix handling); the first directory whose check
succeeds wins. -/
def which (cmd path : Str) (hasExe : Str → Str → Bool) : Option Str :=
  if path = [] then none
  else
    let dirs := splitSemi path
    let dirs2 := if curdir ∈ dirs then dirs else curdir :: dirs
    (dirs2.find? (fun d => hasExe d cmd)).map (fun d => joinPath d cmd)

/-- The persisted environment store: the registry `Path` value at
Machine scope (`HKLM\...\Session Manager\Environment`) and at User scope
(`HKCU\Environment`). -/
structure Store where
  machine : Str
  user : Str
  deriving DecidableEq, Repr

/-- stdout of the `pwsh` probe spawned by `update_path`
(installer.py lines 61-69): `echo` prints the Machine-scope value, a
`';'`, the User-scope value, then its line terminator `term`. -/
def probeOutput (s : Store) (term : Str) : Str :=
  s.machine ++ ';' :: (s.user ++ term)

/-- The process state the script mutates: the persisted store and the
in-memory `os.environ["PATH"]`. -/
structure ProcState where
  store : Store
  envPath : Str
  deriving DecidableEq, Repr

/-- `update_path` (installer.py lines 60-69):
`os.environ["PATH"] = subprocess.run([...pwsh probe...]).stdout.decode()`.
The in-memory PATH is replaced wholesale by the decoded captured stdout,
whatever it is (when the probe fails or prints nothing, that is the empty
string). -/
def update_path (stdout : Str) (st : ProcState) : ProcState :=
  { st with envPath := stdout }

/-- The store write both `pwsh SetEnvironmentVariable` call sites perform
(installer.py lines 183-191 machine scope, 270-278 user scope): the
current registry value with `';' ++ dir` appended, unconditionally. -/
def appendPath (old dir : Str) : Str := old ++ ';' :: dir

/-- The directory appended at machine scope for the Flutter SDK
(installer.py line 188). -/
def flutterBinDir : Str := ("C:\\src\\flutter\\bin" : String).data

/-- The directory appended at user scope for the Android command-line
tools (installer.py line 275). -/
def androidBinDir : Str :=
  ("%LocalAppData%\\Android\\Sdk\\cmdline-tools\\latest\\bin" : String).data

/-- Python `s.lower()` as used on the interactive answers
(installer.py lines 218, 258). -/
def lowerStr (s : Str) : Str := s.map Char.toLower

/-- The affirmative answer the script compares against. -/
def yesAnswer : Str := ['y']

/-- The external effects the script can perform, in the order they are
issued.  `refresh` is the `update_path` PATH probe (the PathSynchronizer
step); all other constructors are strategy work: package-manager runs,
network fetches and downloads, installer/clone processes, persisted-store
writes, and filesystem mutations of the extraction target. -/
inductive Eff
  | refresh
  | runWinget
  | fetchGitReleasePage
  | downloadGitInstaller
  | runGitInstaller
  | gitClone
  | writeMachinePath
  | writeUserPath
  | fetchStudioPage
  | downloadCmdlineTools
  | mkdirSdkDir
  | removeCmdlineTools
  | mkdirCmdlineTools
  | extractZip
  | renameNested
  deriving DecidableEq, Repr

/-- Per-tool outcome of the installation pipeline (spec §3). -/
inductive InstallOutcome
  | AlreadyPresent
  | InstalledVia (i : Nat)
  | Failed
  deriving DecidableEq, Repr

/-- Oracle for the Git flow (installer.py lines 96-156): the outcomes the
external world hands back at each interaction point, in program order. -/
structure GitWorld where
  /-- `which("git", ...)` after the initial `update_path` (line 100). -/
  locate0 : Option Str
  /-- `returncode` of the `winget install` process (line 105). -/
  wingetCode : Int
  /-- `which("git", ...)` after the winget attempt and its refresh (line 109). -/
  locateAfterWinget : Option Str
  /-- whether `re.search` on the release page finds the `64-bit.exe` asset
  (line 120): `true` iff `git_installer_re is not None`. -/
  pageMatch : Bool
  /-- `returncode` of the downloaded installer process (line 140). -/
  installerCode : Int
  /-- `which("git", ...)` after the manual install and its refresh (line 142). -/
  locateAfterManual : Option Str

/-- Result of the Git flow. -/
structure GitResult where
  outcome : InstallOutcome
  /-- final value of the `git_path` variable. -/
  git_path : Str
  /-- `some c` iff the flow called `sys.exit(c)`. -/
  exited : Option Nat
  trace : List Eff
  /-- the line 113 warning ("Failed to install Git with winget ... trying
  manual download") was logged. -/
  warnedWingetFailed : Bool
  /-- the fatal "install manually from https://git-scm.com/download/win"
  error (lines 146-149 / 152-155) was logged. -/
  loggedManualInstallError : Bool
  deriving DecidableEq, Repr

/-- The Git flow, installer.py lines 96-156, branch for branch. -/
def gitFlow (w : GitWorld) : GitResult :=
  match w.locate0 with
  | some p => ⟨.AlreadyPresent, p, none, [.refresh], false, false⟩
  | none =>
    if w.wingetCode = 0 ∧ w.locateAfterWinget.isSome then
      ⟨.InstalledVia 0, w.locateAfterWinget.getD ("git" : String).data, none,
        [.refresh, .runWinget, .refresh], false, false⟩
    else if w.pageMatch then
      if w.installerCode = 0 ∧ w.locateAfterManual.isSome then
        ⟨.InstalledVia 1, w.locateAfterManual.getD ("git" : String).data, none,
          [.refresh, .runWinget, .refresh, .fetchGitReleasePage,
           .downloadGitInstaller, .runGitInstaller, .refresh], true, false⟩
      else
        ⟨.Failed, ("git" : String).data, some 1,
          [.refresh, .runWinget, .refresh, .fetchGitReleasePage,
           .downloadGitInstaller, .runGitInstaller, .refresh], true, true⟩
    else
      ⟨.Failed, ("git" : String).data, some 1,
        [.refresh, .runWinget, .refresh, .fetchGitReleasePage], true, true⟩

/-- Oracle for the Flutter SDK flow (installer.py lines 158-209). -/
structure FlutterWorld where
  /-- the persisted store at the time of the machine-scope write. -/
  store : Store
  /-- `which("flutter", ...)` after the initial `update_path` (line 162). -/
  locate0 : Option Str
  /-- `returncode` of the `pwsh SetEnvironmentVariable(..., Machine)`
  process (line 183). -/
  pathWriteCode : Int
  /-- `which("flutter", ...)` after the clone, PATH write and refresh
  (line 201). -/
  locateAfter : Option Str

/-- Result of the Flutter SDK flow. -/
structure FlutterResult where
  outcome : InstallOutcome
  flutter_path : Str
  exited : Option Nat
  trace : List Eff
  /-- the line 196-199 warning ("Failed to update PATH, may be caused by
  permission issues, please update PATH manually") was logged. -/
  warnedPathUpdate : Bool
  loggedManualInstallError : Bool
  /-- persisted store after the flow. -/
  storeAfter : Store
  deriving DecidableEq, Repr

/-- The Flutter SDK flow, installer.py lines 158-209, branch for branch.
The clone's return code is ignored by the source (line 167); the
machine-scope registry value gains `";C:\src\flutter\bin"` exactly when
the `pwsh` write process exits 0. -/
def flutterFlow (w : FlutterWorld) : FlutterResult :=
  match w.locate0 with
  | some p => ⟨.AlreadyPresent, p, none, [.refresh], false, false, w.store⟩
  | none =>
    let storeAfter :=
      if w.pathWriteCode = 0 then
        { w.store with machine := appendPath w.store.machine flutterBinDir }
      else w.store
    let tr : List Eff := [.refresh, .gitClone, .writeMachinePath, .refresh]
    match w.locateAfter with
    | some p =>
      ⟨.InstalledVia 0, p, none, tr, w.pathWriteCode != 0, false, storeAfter⟩
    | none =>
      ⟨.Failed, ("flutter" : String).data, some 1, tr,
        w.pathWriteCode != 0, true, storeAfter⟩

/-- Abstract contents of the `%LOCALAPPDATA%\Android\Sdk\cmdline-tools`
directory. -/
inductive DirContent
  /-- arbitrary pre-existing bytes, identified by a fingerprint. -/
  | raw (fp : Nat)
  /-- the archive `archive` freshly extracted, with the nested
  `cmdline-tools` directory renamed to `latest` (lines 261-265). -/
  | extractedRenamed (archive : Nat)
  deriving DecidableEq, Repr

/-- Oracle for the Android command-line-tools flow
(installer.py lines 211-304). -/
structure AndroidWorld where
  /-- the persisted store at the time of the user-scope write. -/
  store : Store
  /-- answer to the opt-in prompt (line 212-220). -/
  optInAnswer : Str
  /-- whether `re.search` on the studio page finds the
  `commandlinetools-win-..._latest.zip` asset (line 224):
  `true` iff `commandlinetools_installer_re is not None`. -/
  pageMatch : Bool
  /-- abstract contents of the downloaded archive. -/
  archive : Nat
  /-- contents of `sdk_dir/cmdline-tools` before the flow
  (`none` iff `(sdk_dir / "cmdline-tools").exists()` is false, line 254). -/
  initialCmdline : Option DirContent
  /-- answer to the overwrite prompt (line 258). -/
  overwriteAnswer : Str
  /-- `returncode` of the `pwsh SetEnvironmentVariable(..., User)`
  process (line 270). -/
  pathWriteCode : Int
  /-- `which("sdkmanager.bat", ...)` after the PATH write and refresh
  (line 288). -/
  locateSdkmanagerBat : Option Str

/-- Result of the Android command-line-tools flow. -/
structure AndroidResult where
  /-- `some c` iff the flow called `sys.exit(c)`; `none` means the script
  falls through to its final prompt and terminates with status 0. -/
  exited : Option Nat
  trace : List Eff
  /-- the overwrite confirmation (lines 255-258) was shown. -/
  promptedOverwrite : Bool
  /-- "Skipping Android command line tools installation" (line 267) was
  logged, i.e. the overwrite was declined. -/
  declinedOverwrite : Bool
  /-- the info log "Downloaded Android command line tools, attempting to
  unzip to {sdk_dir}" (lines 247-250) was emitted. -/
  loggedAttemptUnzip : Bool
  /-- the lines 283-286 warning ("Failed to update PATH ... please update
  PATH manually") was logged. -/
  warnedPathUpdate : Bool
  /-- the fatal "please continue install manually" error (lines 292-296)
  was logged. -/
  loggedManualInstallError : Bool
  /-- contents of `sdk_dir/cmdline-tools` after the flow. -/
  finalCmdline : Option DirContent
  storeAfter : Store
  deriving DecidableEq, Repr

/-- The Android command-line-tools flow, installer.py lines 211-304,
branch for branch.  Note the source's `if (sdk_dir / "cmdline-tools").exists():`
guard (line 254) has no else branch: when the directory does not already
exist, no extraction happens at all. -/
def androidFlow (w : AndroidWorld) : AndroidResult :=
  if lowerStr w.optInAnswer = yesAnswer then
    if w.pageMatch then
      let step :=
        match w.initialCmdline with
        | some c0 =>
          if lowerStr w.overwriteAnswer = yesAnswer then
            (([.removeCmdlineTools, .mkdirCmdlineTools, .extractZip,
               .renameNested] : List Eff),
             true, false, some (DirContent.extractedRenamed w.archive))
          else (([] : List Eff), true, true, some c0)
        | none => (([] : List Eff), false, false, (none : Option DirContent))
      let storeAfter :=
        if w.pathWriteCode = 0 then
          { w.store with user := appendPath w.store.user androidBinDir }
        else w.store
      let tr : List Eff :=
        [.fetchStudioPage, .downloadCmdlineTools, .mkdirSdkDir] ++ step.1
          ++ [.writeUserPath, .refresh]
      match w.locateSdkmanagerBat with
      | some _ =>
        ⟨none, tr, step.2.1, step.2.2.1, true, w.pathWriteCode != 0, false,
          step.2.2.2, storeAfter⟩
      | none =>
        ⟨some 1, tr, step.2.1, step.2.2.1, true, w.pathWriteCode != 0, true,
          step.2.2.2, storeAfter⟩
    else
      ⟨none, [.fetchStudioPage], false, false, false, false, false,
        w.initialCmdline, w.store⟩
  else
    ⟨none, [], false, false, false, false, false, w.initialCmdline, w.store⟩

/-!  Claims  -/

/-- C1: for every tool whose executable already resolves on the freshly
refreshed SearchPath (the Git detection, installer.py lines 99-103, and
the Flutter detection, lines 160-164), the flow reports the tool as
already present immediately and performs zero strategy attempts: its
whole effect trace is the single PathSynchronizer refresh prescribed
before detection — no package-manager or installer process, no network
fetch, no persisted-store write. -/
theorem C1_already_present_no_strategy_work
    (wg : GitWorld) (wf : FlutterWorld) (pg pf : Str)
    (hg : wg.locate0 = some pg) (hf : wf.locate0 = some pf) :
    (gitFlow wg).outcome = .AlreadyPresent
      ∧ (gitFlow wg).trace = [Eff.refresh]
      ∧ (gitFlow wg).exited = none
      ∧ (gitFlow wg).git_path = pg
      ∧ (flutterFlow wf).outcome = .AlreadyPresent
      ∧ (flutterFlow wf).trace = [Eff.refresh]
      ∧ (flutterFlow wf).exited = none
      ∧ (flutterFlow wf).storeAfter = wf.store := by
  simp [gitFlow, flutterFlow, hg, hf]

def c1GitWorld : GitWorld :=
  { locate0 := some ("C:\\Program Files\\Git\\cmd\\git.EXE" : String).data
    wingetCode := 0
    locateAfterWinget := none
    pageMatch := false
    installerCode := 0
    locateAfterManual := none }

def c1FlutterWorld : FlutterWorld :=
  { store := ⟨("C:\\Windows" : String).data, ("C:\\Tools" : String).data⟩
    locate0 := some ("C:\\src\\flutter\\bin\\flutter.BAT" : String).data
    pathWriteCode := 0
    locateAfter := none }

/-- C1 witness at a concrete input. -/
theorem C1_witness :
    (gitFlow c1GitWorld).outcome = .AlreadyPresent
      ∧ (gitFlow c1GitWorld).trace = [Eff.refresh]
      ∧ (gitFlow c1GitWorld).exited = none
      ∧ (gitFlow c1GitWorld).git_path
          = ("C:\\Program Files\\Git\\cmd\\git.EXE" : String).data
      ∧ (flutterFlow c1FlutterWorld).outcome = .AlreadyPresent
      ∧ (flutterFlow c1FlutterWorld).trace = [Eff.refresh]
      ∧ (flutterFlow c1FlutterWorld).exited = none
      ∧ (flutterFlow c1FlutterWorld).storeAfter = c1FlutterWorld.store :=
  C1_already_present_no_strategy_work c1GitWorld c1FlutterWorld _ _ rfl rfl

/-- C2: fallback ordering for Git (installer.py lines 104-150): when the
tool is absent, the winget strategy runs first; when it fails (non-zero
exit, or Git still unlocatable after the refresh), the download-and-run
strategy is attempted; when the downloaded installer exits 0 and the
post-refresh locate succeeds, the flow succeeds via strategy index 1, and
the effect trace is exactly winget first, then the release-page fetch,
download and installer run — in declared order, nothing skipped. -/
theorem C2_git_fallback_order (w : GitWorld) (p : Str)
    (h0 : w.locate0 = none)
    (h1 : w.wingetCode ≠ 0 ∨ w.locateAfterWinget = none)
    (h2 : w.pageMatch = true)
    (h3 : w.installerCode = 0)
    (h4 : w.locateAfterManual = some p) :
    (gitFlow w).outcome = .InstalledVia 1
      ∧ (gitFlow w).exited = none
      ∧ (gitFlow w).git_path = p
      ∧ (gitFlow w).warnedWingetFailed = true
      ∧ (gitFlow w).trace = [Eff.refresh, Eff.runWinget, Eff.refresh,
          Eff.fetchGitReleasePage, Eff.downloadGitInstaller,
          Eff.runGitInstaller, Eff.refresh] := by
  have hcond : ¬ (w.wingetCode = 0 ∧ w.locateAfterWinget.isSome) := by
    rintro ⟨ha, hb⟩
    rcases h1 with h | h
    · exact h ha
    · rw [h] at hb
      simp at hb
  have hsome : w.locateAfterManual.isSome := by
    rw [h4]
    rfl
  simp [gitFlow, h0, hcond, h2, h3, hsome, h4]

def c2GitWorld : GitWorld :=
  { locate0 := none
    wingetCode := 1
    locateAfterWinget := none
    pageMatch := true
    installerCode := 0
    locateAfterManual := some ("C:\\Program Files\\Git\\cmd\\git.EXE" : String).data }

/-- C2 witness at a concrete input. -/
theorem C2_witness :
    (gitFlow c2GitWorld).outcome = .InstalledVia 1
      ∧ (gitFlow c2GitWorld).exited = none
      ∧ (gitFlow c2GitWorld).git_path
          = ("C:\\Program Files\\Git\\cmd\\git.EXE" : String).data
      ∧ (gitFlow c2GitWorld).warnedWingetFailed = true
      ∧ (gitFlow c2GitWorld).trace = [Eff.refresh, Eff.runWinget, Eff.refresh,
          Eff.fetchGitReleasePage, Eff.downloadGitInstaller,
          Eff.runGitInstaller, Eff.refresh] :=
  C2_git_fallback_order c2GitWorld _ rfl (Or.inl (by decide)) rfl rfl rfl

def c3AndroidWorld : AndroidWorld :=
  { store := ⟨("C:\\Windows" : String).data, ("C:\\Tools" : String).data⟩
    optInAnswer := ("y" : String).data
    pageMatch := true
    archive := 7
    initialCmdline := some (.raw 0)
    overwriteAnswer := ("y" : String).data
    pathWriteCode := 0
    locateSdkmanagerBat := none }

def c3SkipWorld : AndroidWorld :=
  { store := ⟨("C:\\Windows" : String).data, ("C:\\Tools" : String).data⟩
    optInAnswer := ("n" : String).data
    pageMatch := true
    archive := 7
    initialCmdline := none
    overwriteAnswer := ("n" : String).data
    pathWriteCode := 0
    locateSdkmanagerBat := none }

/-- C3 counterexample: an optional-flow run in which the install is fully
performed (opt-in answered yes, page matched, archive extracted, PATH
written) but `sdkmanager.bat` does not resolve after the refresh.  The
script calls `sys.exit(1)` (installer.py lines 292-297): the process exit
status is 1, not 0, although only the optional tool failed. -/
theorem C3_counterexample :
    (androidFlow c3AndroidWorld).exited = some 1
      ∧ ¬ (androidFlow c3AndroidWorld).exited = none := by decide

/-- C3 amended: optional platform-tools verification failure is fatal —
when the tool does not resolve after the install attempt and refresh, the
script logs the manual-installation guidance and terminates the whole run
with exit status 1, exactly as for a required tool; exit status 0 occurs
when the opt-in prompt is declined (graceful skip) or on success. -/
theorem C3_optional_failure_exits_one (w w2 : AndroidWorld)
    (h1 : lowerStr w.optInAnswer = yesAnswer) (h2 : w.pageMatch = true)
    (h3 : w.locateSdkmanagerBat = none)
    (h4 : ¬ lowerStr w2.optInAnswer = yesAnswer) :
    (androidFlow w).exited = some 1
      ∧ (androidFlow w).loggedManualInstallError = true
      ∧ (androidFlow w2).exited = none
      ∧ (androidFlow w2).trace = [] := by
  refine ⟨?_, ?_, ?_, ?_⟩ <;> simp [androidFlow, h1, h2, h3, h4]

/-- C3 witness at concrete inputs. -/
theorem C3_witness :
    (androidFlow c3AndroidWorld).exited = some 1
      ∧ (androidFlow c3AndroidWorld).loggedManualInstallError = true
      ∧ (androidFlow c3SkipWorld).exited = none
      ∧ (androidFlow c3SkipWorld).trace = [] :=
  C3_optional_failure_exits_one c3AndroidWorld c3SkipWorld (by decide) rfl rfl
    (by decide)

def c4AndroidWorld : AndroidWorld :=
  { store := ⟨("C:\\Windows" : String).data, ("C:\\Tools" : String).data⟩
    optInAnswer := ("y" : String).data
    pageMatch := true
    archive := 7
    initialCmdline := none
    overwriteAnswer := ("y" : String).data
    pathWriteCode := 0
    locateSdkmanagerBat := none }

/-- C4, evaluating the code at the failing input: a fresh target
(`cmdline-tools` does not exist), opt-in answered yes, page matched,
archive downloaded.  Because the `exists()` guard at installer.py line
254 has no else branch, the script logs "attempting to unzip" but never
extracts the archive, never renames the nested directory, shows no
prompt, leaves the target absent, and then fails its own verification
and exits 1 — contradicting both the spec and the script's own log
message. -/
theorem C4_fresh_target_no_extraction :
    (androidFlow c4AndroidWorld).loggedAttemptUnzip = true
      ∧ (androidFlow c4AndroidWorld).promptedOverwrite = false
      ∧ Eff.extractZip ∉ (androidFlow c4AndroidWorld).trace
      ∧ Eff.renameNested ∉ (androidFlow c4AndroidWorld).trace
      ∧ Eff.downloadCmdlineTools ∈ (androidFlow c4AndroidWorld).trace
      ∧ (androidFlow c4AndroidWorld).finalCmdline = none
      ∧ (androidFlow c4AndroidWorld).exited = some 1 := by decide

def c5Initial : Str := ("C:\\Windows" : String).data

/-- C5 counterexample: appending the same directory twice through the
store-write used at installer.py lines 183-191 / 270-278 leaves two
occurrences of the directory in the stored value, not one — there is no
presence check. -/
theorem C5_counterexample :
    ¬ (splitSemi (appendPath (appendPath c5Initial flutterBinDir)
          flutterBinDir)).count flutterBinDir = 1
      ∧ (splitSemi (appendPath (appendPath c5Initial flutterBinDir)
          flutterBinDir)).count flutterBinDir = 2 := by decide

/-- C5 amended: the persisted-store append is unconditional — it never
checks whether the directory is already present — so each call appends
one more occurrence of the directory to the stored value, and calling it
twice with the same directory adds two occurrences. -/
theorem C5_append_no_dedup (old dir : Str) (h : ';' ∉ dir) :
    (splitSemi (appendPath old dir)).count dir
        = (splitSemi old).count dir + 1
      ∧ (splitSemi (appendPath (appendPath old dir) dir)).count dir
        = (splitSemi old).count dir + 2 := by
  have h1 : ∀ s : Str, (splitSemi (appendPath s dir)).count dir
      = (splitSemi s).count dir + 1 := by
    intro s
    unfold appendPath
    rw [splitSemi_append_semi, splitSemi_no_semi h, List.count_append]
    simp
  refine ⟨h1 old, ?_⟩
  rw [h1 (appendPath old dir), h1 old]

/-- C5 witness at a concrete input. -/
theorem C5_witness :
    (splitSemi (appendPath c5Initial flutterBinDir)).count flutterBinDir
        = (splitSemi c5Initial).count flutterBinDir + 1
      ∧ (splitSemi (appendPath (appendPath c5Initial flutterBinDir)
          flutterBinDir)).count flutterBinDir
        = (splitSemi c5Initial).count flutterBinDir + 2 :=
  C5_append_no_dedup c5Initial flutterBinDir (by decide)

/-- C6: conflict decline semantics (installer.py lines 254-267): when the
target subdirectory already exists and the overwrite answer is anything
other than yes, the flow records the decline ("Skipping Android command
line tools installation") and the pre-existing directory contents are
returned unchanged — no removal, no extraction, no rename appears in the
effect trace. -/
theorem C6_decline_leaves_target_unmodified (w : AndroidWorld) (c0 : DirContent)
    (h1 : lowerStr w.optInAnswer = yesAnswer) (h2 : w.pageMatch = true)
    (h3 : w.initialCmdline = some c0)
    (h4 : ¬ lowerStr w.overwriteAnswer = yesAnswer) :
    (androidFlow w).promptedOverwrite = true
      ∧ (androidFlow w).declinedOverwrite = true
      ∧ (androidFlow w).finalCmdline = some c0
      ∧ Eff.removeCmdlineTools ∉ (androidFlow w).trace
      ∧ Eff.extractZip ∉ (androidFlow w).trace
      ∧ Eff.renameNested ∉ (androidFlow w).trace := by
  rcases hL : w.locateSdkmanagerBat with _ | q <;>
    refine ⟨?_, ?_, ?_, ?_, ?_, ?_⟩ <;>
      simp [androidFlow, h1, h2, h3, h4, hL]

def c6AndroidWorld : AndroidWorld :=
  { store := ⟨("C:\\Windows" : String).data, ("C:\\Tools" : String).data⟩
    optInAnswer := ("y" : String).data
    pageMatch := true
    archive := 7
    initialCmdline := some (.raw 5)
    overwriteAnswer := ("N" : String).data
    pathWriteCode := 0
    locateSdkmanagerBat :=
      some ("C:\\A\\cmdline-tools\\latest\\bin\\sdkmanager.BAT" : String).data }

/-- C6 witness at a concrete input. -/
theorem C6_witness :
    (androidFlow c6AndroidWorld).promptedOverwrite = true
      ∧ (androidFlow c6AndroidWorld).declinedOverwrite = true
      ∧ (androidFlow c6AndroidWorld).finalCmdline = some (.raw 5)
      ∧ Eff.removeCmdlineTools ∉ (androidFlow c6AndroidWorld).trace
      ∧ Eff.extractZip ∉ (androidFlow c6AndroidWorld).trace
      ∧ Eff.renameNested ∉ (androidFlow c6AndroidWorld).trace :=
  C6_decline_leaves_target_unmodified c6AndroidWorld (.raw 5) (by decide) rfl
    rfl (by decide)

/-- C7: the rebuilt in-memory search path is the Machine-scope directory
list followed by the User-scope directory list, each scope's internal
order preserved (the probe's line terminator attaches to the final
User-scope entry), and a tool present in both scopes resolves to its
first Machine-scope location — first match wins. -/
theorem C7_machine_before_user_first_match
    (ms us : List Str) (term cmd : Str) (hasExe : Str → Str → Bool)
    (hms : ∀ d ∈ ms, ';' ∉ d) (hus : ∀ d ∈ us, ';' ∉ d)
    (hterm : ';' ∉ term) (hne : ms ≠ [])
    (hcur : hasExe curdir cmd = false)
    (hhit : (ms.find? (fun d => hasExe d cmd)).isSome) :
    splitSemi (probeOutput ⟨joinSemi ms, joinSemi us⟩ term)
        = ms ++ appendLast us term
      ∧ which cmd (probeOutput ⟨joinSemi ms, joinSemi us⟩ term) hasExe
        = (ms.find? (fun d => hasExe d cmd)).map (fun d => joinPath d cmd) := by
  have hsplit : splitSemi (probeOutput ⟨joinSemi ms, joinSemi us⟩ term)
      = ms ++ appendLast us term := by
    show splitSemi (joinSemi ms ++ ';' :: (joinSemi us ++ term)) = _
    rw [splitSemi_append_semi, splitSemi_joinSemi hne hms,
      splitSemi_joinSemi_append_term hus hterm]
  refine ⟨hsplit, ?_⟩
  have hpne : probeOutput ⟨joinSemi ms, joinSemi us⟩ term ≠ [] := by
    show joinSemi ms ++ ';' :: (joinSemi us ++ term) ≠ []
    simp
  unfold which
  rw [if_neg hpne, hsplit]
  by_cases hc : curdir ∈ ms ++ appendLast us term
  · simp only [if_pos hc]
    rw [find?_append_of_isSome _ _ _ hhit]
  · simp only [if_neg hc]
    rw [List.find?_cons_of_neg _ (by simp [hcur]),
      find?_append_of_isSome _ _ _ hhit]

def c7Machine : List Str := [("C:\\M1" : String).data, ("C:\\M2" : String).data]

def c7User : List Str := [("C:\\U" : String).data]

def c7HasExe : Str → Str → Bool := fun d _ =>
  d == ("C:\\M2" : String).data || d == ("C:\\U" : String).data

/-- C7 witness at a concrete input: the tool is present in a Machine
directory and in a User directory; it resolves to the Machine one. -/
theorem C7_witness :
    splitSemi (probeOutput ⟨joinSemi c7Machine, joinSemi c7User⟩ ['\n'])
        = c7Machine ++ appendLast c7User ['\n']
      ∧ which ("git" : String).data
          (probeOutput ⟨joinSemi c7Machine, joinSemi c7User⟩ ['\n']) c7HasExe
        = (c7Machine.find? (fun d => c7HasExe d ("git" : String).data)).map
            (fun d => joinPath d ("git" : String).data) :=
  C7_machine_before_user_first_match c7Machine c7User ['\n'] _ c7HasExe
    (by decide) (by decide) (by decide) (by decide) (by decide) (by decide)

def c8AndroidWorld : AndroidWorld :=
  { store := ⟨("C:\\Windows" : String).data, ("C:\\Tools" : String).data⟩
    optInAnswer := ("y" : String).data
    pageMatch := false
    archive := 7
    initialCmdline := none
    overwriteAnswer := ("y" : String).data
    pathWriteCode := 0
    locateSdkmanagerBat := none }

/-- C8 counterexample: when the platform-tools download page has no
matching substring (installer.py lines 224-228), the `if ... is not None`
guard has no else branch: the remainder of the optional flow is silently
skipped — no fatal manual-installation guidance message is emitted and
the run continues to a normal exit — contradicting the claim that a
NotFound with no remaining strategy emits the fatal guidance for this
page too. -/
theorem C8_counterexample :
    (androidFlow c8AndroidWorld).loggedManualInstallError = false
      ∧ (androidFlow c8AndroidWorld).exited = none
      ∧ (androidFlow c8AndroidWorld).trace = [Eff.fetchStudioPage] := by decide

/-- C8 amended: a page with no matching substring makes the resolver
report NotFound and no installation work for that strategy happens.  For
the version-control tool's release page, where no fallback remains, the
pipeline emits the fatal manual-installation guidance and exits 1
(installer.py lines 151-156); for the platform-tools download page the
rest of the optional flow is silently skipped — no guidance message, no
further effects, normal exit. -/
theorem C8_notfound_handling (wg : GitWorld) (wa : AndroidWorld)
    (hg0 : wg.locate0 = none)
    (hg1 : wg.wingetCode ≠ 0 ∨ wg.locateAfterWinget = none)
    (hg2 : wg.pageMatch = false)
    (ha1 : lowerStr wa.optInAnswer = yesAnswer)
    (ha2 : wa.pageMatch = false) :
    (gitFlow wg).outcome = .Failed
      ∧ (gitFlow wg).exited = some 1
      ∧ (gitFlow wg).loggedManualInstallError = true
      ∧ (gitFlow wg).trace = [Eff.refresh, Eff.runWinget, Eff.refresh,
          Eff.fetchGitReleasePage]
      ∧ (androidFlow wa).exited = none
      ∧ (androidFlow wa).loggedManualInstallError = false
      ∧ (androidFlow wa).trace = [Eff.fetchStudioPage] := by
  have hcond : ¬ (wg.wingetCode = 0 ∧ wg.locateAfterWinget.isSome) := by
    rintro ⟨ha, hb⟩
    rcases hg1 with h | h
    · exact h ha
    · rw [h] at hb
      simp at hb
  refine ⟨?_, ?_, ?_, ?_, ?_, ?_, ?_⟩ <;>
    simp [gitFlow, androidFlow, hg0, hcond, hg2, ha1, ha2]

def c8GitWorld : GitWorld :=
  { locate0 := none
    wingetCode := 1
    locateAfterWinget := none
    pageMatch := false
    installerCode := 0
    locateAfterManual := none }

/-- C8 witness at concrete inputs. -/
theorem C8_witness :
    (gitFlow c8GitWorld).outcome = .Failed
      ∧ (gitFlow c8GitWorld).exited = some 1
      ∧ (gitFlow c8GitWorld).loggedManualInstallError = true
      ∧ (gitFlow c8GitWorld).trace = [Eff.refresh, Eff.runWinget, Eff.refresh,
          Eff.fetchGitReleasePage]
      ∧ (androidFlow c8AndroidWorld).exited = none
      ∧ (androidFlow c8AndroidWorld).loggedManualInstallError = false
      ∧ (androidFlow c8AndroidWorld).trace = [Eff.fetchStudioPage] :=
  C8_notfound_handling c8GitWorld c8AndroidWorld rfl (Or.inl (by decide)) rfl
    (by decide) rfl

/-- C9: when a persisted-store PATH write fails (non-zero `pwsh` return
code; machine scope installer.py lines 193-199, user scope lines
280-286), the failure is surfaced as the "please update PATH manually"
warning, the write is not retried (exactly one write effect in the
trace), the persisted store is left unchanged, and the run continues past
the failure to the refresh-and-verify step rather than terminating. -/
theorem C9_permission_failure_downgraded
    (wf : FlutterWorld) (wa : AndroidWorld) (pf pa : Str)
    (hf0 : wf.locate0 = none) (hfc : wf.pathWriteCode ≠ 0)
    (ha1 : lowerStr wa.optInAnswer = yesAnswer) (ha2 : wa.pageMatch = true)
    (hac : wa.pathWriteCode ≠ 0) :
    (flutterFlow wf).warnedPathUpdate = true
      ∧ (flutterFlow wf).trace
          = [Eff.refresh, Eff.gitClone, Eff.writeMachinePath, Eff.refresh]
      ∧ (flutterFlow wf).trace.count Eff.writeMachinePath = 1
      ∧ (flutterFlow wf).storeAfter = wf.store
      ∧ (wf.locateAfter = some pf →
          (flutterFlow wf).exited = none
            ∧ (flutterFlow wf).outcome = .InstalledVia 0)
      ∧ (androidFlow wa).warnedPathUpdate = true
      ∧ (androidFlow wa).trace.count Eff.writeUserPath = 1
      ∧ Eff.refresh ∈ (androidFlow wa).trace
      ∧ (androidFlow wa).storeAfter = wa.store
      ∧ (wa.locateSdkmanagerBat = some pa → (androidFlow wa).exited = none) := by
  rcases hL : wa.locateSdkmanagerBat with _ | q <;>
    rcases hI : wa.initialCmdline with _ | c0 <;>
      by_cases hO : lowerStr wa.overwriteAnswer = yesAnswer <;>
        rcases hF : wf.locateAfter with _ | p2 <;>
          refine ⟨?_, ?_, ?_, ?_, ?_, ?_, ?_, ?_, ?_, ?_⟩ <;>
            simp [flutterFlow, androidFlow, hf0, hfc, ha1, ha2, hac, hL, hI,
              hO, hF]

def c9FlutterWorld : FlutterWorld :=
  { store := ⟨("C:\\Windows" : String).data, ("C:\\Tools" : String).data⟩
    locate0 := none
    pathWriteCode := 1
    locateAfter := some ("C:\\src\\flutter\\bin\\flutter.BAT" : String).data }

def c9AndroidWorld : AndroidWorld :=
  { store := ⟨("C:\\Windows" : String).data, ("C:\\Tools" : String).data⟩
    optInAnswer := ("y" : String).data
    pageMatch := true
    archive := 7
    initialCmdline := some (.raw 0)
    overwriteAnswer := ("y" : String).data
    pathWriteCode := 5
    locateSdkmanagerBat :=
      some ("C:\\A\\cmdline-tools\\latest\\bin\\sdkmanager.BAT" : String).data }

/-- C9 witness at concrete inputs. -/
theorem C9_witness :
    (flutterFlow c9FlutterWorld).warnedPathUpdate = true
      ∧ (flutterFlow c9FlutterWorld).trace
          = [Eff.refresh, Eff.gitClone, Eff.writeMachinePath, Eff.refresh]
      ∧ (flutterFlow c9FlutterWorld).trace.count Eff.writeMachinePath = 1
      ∧ (flutterFlow c9FlutterWorld).storeAfter = c9FlutterWorld.store
      ∧ (c9FlutterWorld.locateAfter
            = some ("C:\\src\\flutter\\bin\\flutter.BAT" : String).data →
          (flutterFlow c9FlutterWorld).exited = none
            ∧ (flutterFlow c9FlutterWorld).outcome = .InstalledVia 0)
      ∧ (androidFlow c9AndroidWorld).warnedPathUpdate = true
      ∧ (androidFlow c9AndroidWorld).trace.count Eff.writeUserPath = 1
      ∧ Eff.refresh ∈ (androidFlow c9AndroidWorld).trace
      ∧ (androidFlow c9AndroidWorld).storeAfter = c9AndroidWorld.store
      ∧ (c9AndroidWorld.locateSdkmanagerBat
            = some ("C:\\A\\cmdline-tools\\latest\\bin\\sdkmanager.BAT" : String).data →
          (androidFlow c9AndroidWorld).exited = none) :=
  C9_permission_failure_downgraded c9FlutterWorld c9AndroidWorld _ _ rfl
    (by decide) (by decide) rfl (by decide)

/-- C10: `update_path` replaces the in-memory PATH wholesale with the
decoded captured stdout of the spawned probe, verbatim — when the probe
succeeds, that is the Machine value, `';'`, the User value, then the
probe's trailing line terminator; when the probe fails or prints nothing,
the in-memory search path becomes the empty string, and every subsequent
`which` lookup on it reports the tool as absent. -/
theorem C10_refresh_wholesale_replacement (st : ProcState) (store : Store)
    (term stdout cmd : Str) (hasExe : Str → Str → Bool) :
    (update_path stdout st).envPath = stdout
      ∧ (update_path stdout st).store = st.store
      ∧ (update_path (probeOutput store term) st).envPath
          = store.machine ++ ';' :: (store.user ++ term)
      ∧ (update_path [] st).envPath = []
      ∧ which cmd (update_path [] st).envPath hasExe = none :=
  ⟨rfl, rfl, rfl, rfl, rfl⟩

end FlutterInstaller
